import Mathlib

/-
  Verification of `python/cryptoauthlib/library.py` (Cryptoauthlib Library
  Management binding layer).

  Shallow embedding conventions:
  * A Python string is modelled as the list of its code points (`PyStr`);
    Python's `str.upper` on the ASCII names occurring here is the per-code-point
    map lowering `a..z` (97..122) to `A..Z`.
  * A Python `dict` literal with distinct keys, read through `dict.get`, is
    modelled as an association list read through `List.lookup` (first match;
    the keys of every table in the source are pairwise distinct).
  * `dict.get(k)` with no default returns Python `None` when the key is
    absent: modelled as `Option` with `none`.
  * A raised exception (`ValueError`, `IndexError`) is modelled as the
    `Except.error` branch of an `Except Unit` result.
  * A ctypes structure instance is modelled as its type name together with its
    backing bytes; `sizeof` is the length of the backing bytes.
-/

namespace CryptoAuthLib

/-- Python strings as lists of code points. -/
abbrev PyStr := List Nat

/-- Code points of a Lean string literal, used to write the Python string
literals of the source. -/
def str (s : String) : PyStr := s.data.map Char.toNat

/-- Python `str.upper` on a single ASCII code point: lowercase letters
97..122 map down by 32, everything else is unchanged. -/
def pyUpperCp (n : Nat) : Nat :=
  if 97 ≤ n ∧ n ≤ 122 then n - 32 else n

/-- Python `str.upper`, restricted to the ASCII strings this module handles. -/
def pyUpper (s : PyStr) : PyStr := s.map pyUpperCp

/-- The `devices` dict literal of `get_device_name` (library.py lines 100-106). -/
def deviceNameTable : List (Nat × PyStr) :=
  [(0x10, str "ATECC108A"),
   (0x50, str "ATECC508A"),
   (0x60, str "ATECC608"),
   (0x20, str "ECC204"),
   (0x00, str "ATSHA204A"),
   (0x02, str "ATSHA204A"),
   (0x40, str "ATSHA206A")]

/-- `get_device_name(revision)` (library.py lines 96-108): looks up
`revision[2]` in the table with default `'UNKNOWN'`.  Indexing a sequence of
length below 3 raises `IndexError`, modelled as `none`. -/
def get_device_name (revision : List Nat) : Option PyStr :=
  match revision[2]? with
  | none => none
  | some b => some ((deviceNameTable.lookup b).getD (str "UNKNOWN"))

/-- The `devices` dict literal of `get_device_type_id` (library.py lines
115-123).  Note the source's spelling `ATSAH206A` for the value-4 key. -/
def deviceTypeTable : List (PyStr × Nat) :=
  [(str "ATSHA204A", 0),
   (str "ATECC108A", 1),
   (str "ATECC508A", 2),
   (str "ATECC608A", 3),
   (str "ATECC608B", 3),
   (str "ATECC608", 3),
   (str "ATSAH206A", 4),
   (str "ECC204", 5),
   (str "UNKNOWN", 0x20)]

/-- `get_device_type_id(name)` (library.py lines 111-124):
`devices.get(name.upper())` — no default, so an absent key yields Python
`None`, modelled as `none`. -/
def get_device_type_id (name : PyStr) : Option Nat :=
  deviceTypeTable.lookup (pyUpper name)

lemma pyUpperCp_idem (n : Nat) : pyUpperCp (pyUpperCp n) = pyUpperCp n := by
  unfold pyUpperCp
  split
  · rw [if_neg (by omega)]
  · rfl

lemma pyUpper_idem (s : PyStr) : pyUpper (pyUpper s) = pyUpper s := by
  induction s with
  | nil => rfl
  | cons a t ih =>
      show pyUpperCp (pyUpperCp a) :: pyUpper (pyUpper t) =
        pyUpperCp a :: pyUpper t
      rw [pyUpperCp_idem, ih]

/-- C1 (claim as stated is false): `get_device_type_id("NOT_A_DEVICE")` does
not yield the sentinel `0x20`; the `dict.get` call has no default, so an
absent key yields Python `None`. -/
theorem c1_counterexample :
    get_device_type_id (str "NOT_A_DEVICE") ≠ some 0x20 := by decide

/-- C1 amended: for every name absent from the table after upper-casing,
`get_device_type_id` returns `None` (no value); `get_device_type_id("UNKNOWN")`
yields `0x20` because `'UNKNOWN'` is itself a table key, and
`get_device_type_id("NOT_A_DEVICE")` yields `None`. -/
theorem c1_amended (name : PyStr)
    (h : deviceTypeTable.lookup (pyUpper name) = none) :
    get_device_type_id name = none ∧
    get_device_type_id (str "UNKNOWN") = some 0x20 ∧
    get_device_type_id (str "NOT_A_DEVICE") = none := by
  refine ⟨h, by decide, by decide⟩

/-- Witness for C1 amended at the concrete name `"NOT_A_DEVICE"`. -/
theorem c1_amended_witness :
    get_device_type_id (str "NOT_A_DEVICE") = none :=
  (c1_amended (str "NOT_A_DEVICE") (by decide)).1

/-- C2: composing the two lookups is not closed over the known-device tables:
every third byte in the name table other than `0x40` composes to an integer
type code, but `0x40` produces `'ATSHA206A'`, absent from the type table
(which spells `'ATSAH206A'`), so the composition yields no integer there. -/
theorem c2_composition (revision : List Nat) (b : Nat)
    (hb : revision[2]? = some b) :
    (b ∈ ([0x10, 0x50, 0x60, 0x20, 0x00, 0x02] : List Nat) →
      ∃ name k, get_device_name revision = some name ∧
        get_device_type_id name = some k) ∧
    (b = 0x40 →
      get_device_name revision = some (str "ATSHA206A") ∧
      get_device_type_id (str "ATSHA206A") = none ∧
      deviceTypeTable.lookup (str "ATSAH206A") = some 4) := by
  have hname : ∀ nm : PyStr, deviceNameTable.lookup b = some nm →
      get_device_name revision = some nm := by
    intro nm hnm
    simp [get_device_name, hb, hnm]
  constructor
  · intro hmem
    simp only [List.mem_cons, List.not_mem_nil, or_false] at hmem
    rcases hmem with rfl | rfl | rfl | rfl | rfl | rfl
    · exact ⟨str "ATECC108A", 1, hname _ (by decide), by decide⟩
    · exact ⟨str "ATECC508A", 2, hname _ (by decide), by decide⟩
    · exact ⟨str "ATECC608", 3, hname _ (by decide), by decide⟩
    · exact ⟨str "ECC204", 5, hname _ (by decide), by decide⟩
    · exact ⟨str "ATSHA204A", 0, hname _ (by decide), by decide⟩
    · exact ⟨str "ATSHA204A", 0, hname _ (by decide), by decide⟩
  · rintro rfl
    exact ⟨hname _ (by decide), by decide, by decide⟩

/-- Witness for C2 at the concrete revision `[0, 0, 0x40, 0]`. -/
theorem c2_composition_witness :
    get_device_name [0, 0, 0x40, 0] = some (str "ATSHA206A") ∧
    get_device_type_id (str "ATSHA206A") = none :=
  ⟨((c2_composition [0, 0, 0x40, 0] 0x40 (by decide)).2 rfl).1,
   ((c2_composition [0, 0, 0x40, 0] 0x40 (by decide)).2 rfl).2.1⟩

/-- C6: for every revision of length at least 3, a third byte among the seven
table keys yields its mapped name and any other third byte yields
`"UNKNOWN"`. -/
theorem c6_device_name (revision : List Nat) (b : Nat)
    (hb : revision[2]? = some b) :
    (b ∉ ([0x10, 0x50, 0x60, 0x20, 0x00, 0x02, 0x40] : List Nat) →
      get_device_name revision = some (str "UNKNOWN")) ∧
    (b = 0x10 → get_device_name revision = some (str "ATECC108A")) ∧
    (b = 0x50 → get_device_name revision = some (str "ATECC508A")) ∧
    (b = 0x60 → get_device_name revision = some (str "ATECC608")) ∧
    (b = 0x20 → get_device_name revision = some (str "ECC204")) ∧
    (b = 0x00 → get_device_name revision = some (str "ATSHA204A")) ∧
    (b = 0x02 → get_device_name revision = some (str "ATSHA204A")) ∧
    (b = 0x40 → get_device_name revision = some (str "ATSHA206A")) := by
  have hname : ∀ nm : PyStr, deviceNameTable.lookup b = some nm →
      get_device_name revision = some nm := by
    intro nm hnm
    simp [get_device_name, hb, hnm]
  refine ⟨?_, ?_, ?_, ?_, ?_, ?_, ?_, ?_⟩
  · intro hnot
    simp only [List.mem_cons, List.not_mem_nil, or_false, not_or] at hnot
    obtain ⟨h1, h2, h3, h4, h5, h6, h7⟩ := hnot
    have hget : deviceNameTable.lookup b = none := by
      simp [deviceNameTable, List.lookup, beq_false_of_ne h1,
        beq_false_of_ne h2, beq_false_of_ne h3, beq_false_of_ne h4,
        beq_false_of_ne h5, beq_false_of_ne h6, beq_false_of_ne h7]
    simp [get_device_name, hb, hget]
  · rintro rfl; exact hname _ (by decide)
  · rintro rfl; exact hname _ (by decide)
  · rintro rfl; exact hname _ (by decide)
  · rintro rfl; exact hname _ (by decide)
  · rintro rfl; exact hname _ (by decide)
  · rintro rfl; exact hname _ (by decide)
  · rintro rfl; exact hname _ (by decide)

/-- Witness for C6 at the concrete revision `[0, 0, 0x33, 0]`, whose third
byte is not a table key. -/
theorem c6_device_name_witness :
    get_device_name [0, 0, 0x33, 0] = some (str "UNKNOWN") :=
  (c6_device_name [0, 0, 0x33, 0] 0x33 (by decide)).1 (by decide)

/-- C8: `get_device_type_id` is case-insensitive — applying it to a name and
to the upper-cased name gives the same result, and both `"ecc204"` and
`"ECC204"` yield 5. -/
theorem c8_case_insensitive (name : PyStr) :
    get_device_type_id name = get_device_type_id (pyUpper name) ∧
    get_device_type_id (str "ecc204") = some 5 ∧
    get_device_type_id (str "ECC204") = some 5 := by
  refine ⟨?_, by decide, by decide⟩
  unfold get_device_type_id
  rw [pyUpper_idem]

/-- A ctypes structure instance (an `AtcaStructure` object): its runtime type
name together with its backing memory, one `Nat` in `0..255` per byte;
`sizeof` is the length of the backing bytes. -/
structure CStruct where
  typeName : PyStr
  bytes : List Nat

/-- ctypes `sizeof` of a structure instance. -/
def sizeofS (s : CStruct) : Nat := s.bytes.length

/-- `AtcaStructure.update_from_buffer(self, buffer)` (library.py lines
216-219): raises `ValueError` when `len(buffer) < sizeof(self)`, otherwise
`memmove`s exactly `sizeof(self)` bytes of `buffer` over the backing memory. -/
def update_from_buffer (s : CStruct) (buffer : List Nat) :
    Except Unit CStruct :=
  if buffer.length < sizeofS s then Except.error ()
  else Except.ok ⟨s.typeName, buffer.take (sizeofS s)⟩

/-- `ctypes_to_bytes(obj)` (library.py lines 222-228): `memmove`s exactly
`sizeof(obj)` bytes out of the backing memory into a fresh byte string. -/
def ctypes_to_bytes (s : CStruct) : List Nat := s.bytes.take (sizeofS s)

/-- A Python value arriving at `get_ctype_structure_instance`, split by the
runtime-type tests the source performs (`dict`, `int`, `AtcaEnum`, an
instance of the target structure type, anything else).  An `AtcaEnum` member
carries the integer the source extracts with `int(value)`; an opaque other
value is named by a string. -/
inductive PyValue where
  | dict (m : List (PyStr × Int))
  | int (n : Int)
  | enum (n : Int)
  | struct (typeName : PyStr) (bytes : List Nat)
  | other (o : PyStr)

/-- A ctypes structure type derived from `AtcaStructure`: its name, declared
size, and its two constructors (keyword construction from a mapping, and
single-positional-argument construction), each producing backing bytes of
the declared size. -/
structure CStructType where
  name : PyStr
  size : Nat
  ctorKw : List (PyStr × Int) → List Nat
  ctorKw_size : ∀ m, (ctorKw m).length = size
  ctorPos : PyValue → List Nat
  ctorPos_size : ∀ v, (ctorPos v).length = size

/-- The backing bytes of `c_uint(n)`: the 4-byte little-endian unsigned
representation of `n` modulo `2 ^ 32` (ctypes does no overflow checking). -/
def c_uint_bytes (n : Int) : List Nat :=
  let m := (n % (2 ^ 32 : Int)).toNat
  [m % 256, m / 256 % 256, m / 65536 % 256, m / 16777216 % 256]

/-- ctypes `T.from_buffer_copy(src)`: raises `ValueError` when the source
buffer is smaller than `sizeof(T)`, otherwise copies the first `sizeof(T)`
bytes into a fresh instance. -/
def from_buffer_copy (T : CStructType) (src : List Nat) :
    Except Unit CStruct :=
  if src.length < T.size then Except.error ()
  else Except.ok ⟨T.name, src.take T.size⟩

/-- `get_ctype_structure_instance(structure, value)` (library.py lines
142-160): dispatch on the runtime type of `value` in source order — `dict`,
`int`, `AtcaEnum`, not-an-instance-of-`structure`, else passthrough. -/
def get_ctype_structure_instance (T : CStructType) (v : PyValue) :
    Except Unit CStruct :=
  match v with
  | PyValue.dict m => Except.ok ⟨T.name, T.ctorKw m⟩
  | PyValue.int n => from_buffer_copy T (c_uint_bytes n)
  | PyValue.enum n => from_buffer_copy T (c_uint_bytes n)
  | PyValue.struct tn bs =>
      if tn = T.name then Except.ok ⟨tn, bs⟩
      else Except.ok ⟨T.name, T.ctorPos (PyValue.struct tn bs)⟩
  | PyValue.other o => Except.ok ⟨T.name, T.ctorPos (PyValue.other o)⟩

lemma c_uint_bytes_length (n : Int) : (c_uint_bytes n).length = 4 := rfl

/-- C3: `update_from_buffer` raises `ValueError` exactly when the buffer is
shorter than the structure (leaving the structure untouched, since no result
is produced), and otherwise overwrites the backing memory with exactly the
first `sizeof` bytes of the buffer, ignoring any excess. -/
theorem c3_update_from_buffer (s : CStruct) (buffer : List Nat) :
    (update_from_buffer s buffer = Except.error () ↔
      buffer.length < sizeofS s) ∧
    (sizeofS s ≤ buffer.length →
      update_from_buffer s buffer =
        Except.ok ⟨s.typeName, buffer.take (sizeofS s)⟩) := by
  constructor
  · by_cases hlt : buffer.length < sizeofS s
    · simp [update_from_buffer, hlt]
    · simp [update_from_buffer, hlt]
  · intro hle
    simp [update_from_buffer, Nat.not_lt.mpr hle]

/-- Witness for C3 at a 2-byte structure and a 3-byte buffer. -/
theorem c3_update_from_buffer_witness :
    update_from_buffer ⟨str "t", [1, 2]⟩ [9, 8, 7] =
      Except.ok ⟨str "t", [9, 8]⟩ :=
  (c3_update_from_buffer ⟨str "t", [1, 2]⟩ [9, 8, 7]).2 (by decide)

/-- C4: building a structure from a mapping, serializing it, and hydrating a
fresh instance of the same type through `update_from_buffer` reproduces the
same backing bytes byte-for-byte. -/
theorem c4_roundtrip (T : CStructType) (m : List (PyStr × Int))
    (s2 : CStruct) (htn : s2.typeName = T.name)
    (hsz : sizeofS s2 = T.size) :
    ∃ s : CStruct,
      get_ctype_structure_instance T (PyValue.dict m) = Except.ok s ∧
      update_from_buffer s2 (ctypes_to_bytes s) =
        Except.ok ⟨T.name, s.bytes⟩ := by
  refine ⟨⟨T.name, T.ctorKw m⟩, rfl, ?_⟩
  have hlen : (T.ctorKw m).length = T.size := T.ctorKw_size m
  have hct : ctypes_to_bytes ⟨T.name, T.ctorKw m⟩ = T.ctorKw m := by
    simp [ctypes_to_bytes, sizeofS]
  rw [hct]
  unfold update_from_buffer
  rw [if_neg (by omega), hsz, ← hlen, List.take_length, htn]

/-- Witness for C4 with a concrete 2-byte structure type. -/
theorem c4_roundtrip_witness :
    ∃ s : CStruct,
      get_ctype_structure_instance
        ⟨str "t", 2, fun _ => [3, 4], fun _ => rfl, fun _ => [0, 0],
          fun _ => rfl⟩ (PyValue.dict []) = Except.ok s ∧
      update_from_buffer ⟨str "t", [7, 7]⟩ (ctypes_to_bytes s) =
        Except.ok ⟨str "t", s.bytes⟩ :=
  c4_roundtrip
    ⟨str "t", 2, fun _ => [3, 4], fun _ => rfl, fun _ => [0, 0], fun _ => rfl⟩
    [] ⟨str "t", [7, 7]⟩ rfl rfl

/-- C5: the dispatch of `get_ctype_structure_instance` — a mapping is
keyword-constructed; an integer (when the structure fits in 4 bytes) is a
raw bitwise copy of the 4-byte unsigned representation; an enum member is
raw-copied from its integer value; a value already of the structure's type
passes through unchanged; anything else is positional-constructed. -/
theorem c5_dispatch (T : CStructType) (m : List (PyStr × Int)) (n k : Int)
    (tn : PyStr) (bs : List Nat) (o : PyStr) :
    (get_ctype_structure_instance T (PyValue.dict m) =
      Except.ok ⟨T.name, T.ctorKw m⟩) ∧
    (T.size ≤ 4 →
      get_ctype_structure_instance T (PyValue.int n) =
        Except.ok ⟨T.name, (c_uint_bytes n).take T.size⟩) ∧
    (T.size ≤ 4 →
      get_ctype_structure_instance T (PyValue.enum k) =
        Except.ok ⟨T.name, (c_uint_bytes k).take T.size⟩) ∧
    (get_ctype_structure_instance T (PyValue.struct T.name bs) =
      Except.ok ⟨T.name, bs⟩) ∧
    (tn ≠ T.name →
      get_ctype_structure_instance T (PyValue.struct tn bs) =
        Except.ok ⟨T.name, T.ctorPos (PyValue.struct tn bs)⟩) ∧
    (get_ctype_structure_instance T (PyValue.other o) =
      Except.ok ⟨T.name, T.ctorPos (PyValue.other o)⟩) := by
  refine ⟨rfl, ?_, ?_, ?_, ?_, rfl⟩
  · intro h4
    have hx : ¬ ((c_uint_bytes n).length < T.size) := by
      rw [c_uint_bytes_length]; omega
    simp only [get_ctype_structure_instance, from_buffer_copy, if_neg hx]
  · intro h4
    have hx : ¬ ((c_uint_bytes k).length < T.size) := by
      rw [c_uint_bytes_length]; omega
    simp only [get_ctype_structure_instance, from_buffer_copy, if_neg hx]
  · simp [get_ctype_structure_instance]
  · intro hne
    simp only [get_ctype_structure_instance]
    rw [if_neg hne]

/-- Witness for C5 with a concrete 2-byte structure type and the integer
input 258 (bytes 2, 1 little-endian). -/
theorem c5_dispatch_witness :
    get_ctype_structure_instance
      ⟨str "t", 2, fun _ => [3, 4], fun _ => rfl, fun _ => [0, 0],
        fun _ => rfl⟩ (PyValue.int 258) =
      Except.ok ⟨str "t", [2, 1]⟩ := by
  have h :=
    (c5_dispatch
      ⟨str "t", 2, fun _ => [3, 4], fun _ => rfl, fun _ => [0, 0],
        fun _ => rfl⟩ [] 258 0 (str "u") [] (str "o")).2.1 (by decide)
  rw [h]
  rfl

/-- The fixed-width unsigned ctypes integer types named in
`_CTYPES_BY_SIZE`. -/
inductive CType where
  | c_uint8
  | c_uint16
  | c_uint32
  deriving DecidableEq

/-- The `_CTYPES_BY_SIZE` dict literal (library.py line 38). -/
def _CTYPES_BY_SIZE : List (Nat × CType) :=
  [(1, CType.c_uint8), (2, CType.c_uint16), (4, CType.c_uint32)]

/-- The loaded native library as seen through `getattr`: a partial map from
symbol names to zero-argument callables returning an integer. -/
def NativeLib := PyStr → Option (Unit → Nat)

/-- `get_size_by_name(name)` (library.py lines 127-132):
`getattr(_CRYPTO_LIB, '{}_size'.format(name), lambda: 4)()` — call the
`<name>_size` symbol when present, otherwise the default callable
returning 4. -/
def get_size_by_name (lib : NativeLib) (name : PyStr) : Nat :=
  match lib (name ++ str "_size") with
  | some f => f ()
  | none => 4

/-- `get_ctype_by_name(name)` (library.py lines 135-139):
`_CTYPES_BY_SIZE.get(get_size_by_name(name))` — `None` when the size is not
a key. -/
def get_ctype_by_name (lib : NativeLib) (name : PyStr) : Option CType :=
  _CTYPES_BY_SIZE.lookup (get_size_by_name lib name)

/-- C7: when the library lacks the `<name>_size` symbol the size defaults
to 4; sizes 1, 2, 4 map to the three fixed-width unsigned types; every other
size yields no mapping, without raising an error. -/
theorem c7_size_introspection (lib : NativeLib) (name : PyStr) :
    (lib (name ++ str "_size") = none → get_size_by_name lib name = 4) ∧
    (get_size_by_name lib name = 1 →
      get_ctype_by_name lib name = some CType.c_uint8) ∧
    (get_size_by_name lib name = 2 →
      get_ctype_by_name lib name = some CType.c_uint16) ∧
    (get_size_by_name lib name = 4 →
      get_ctype_by_name lib name = some CType.c_uint32) ∧
    (get_size_by_name lib name ∉ ([1, 2, 4] : List Nat) →
      get_ctype_by_name lib name = none) := by
  refine ⟨?_, ?_, ?_, ?_, ?_⟩
  · intro hnone
    unfold get_size_by_name
    rw [hnone]
  · intro h1
    unfold get_ctype_by_name
    rw [h1]
    decide
  · intro h2
    unfold get_ctype_by_name
    rw [h2]
    decide
  · intro h4
    unfold get_ctype_by_name
    rw [h4]
    decide
  · intro hnot
    simp only [List.mem_cons, List.not_mem_nil, or_false, not_or] at hnot
    obtain ⟨h1, h2, h4⟩ := hnot
    unfold get_ctype_by_name _CTYPES_BY_SIZE
    simp [List.lookup, beq_false_of_ne h1, beq_false_of_ne h2,
      beq_false_of_ne h4]

/-- Witness for C7 at a library with no symbols: the size of `"foo"`
defaults to 4, which maps to the 32-bit unsigned type. -/
theorem c7_size_introspection_witness :
    get_size_by_name (fun _ => none) (str "foo") = 4 ∧
    get_ctype_by_name (fun _ => none) (str "foo") = some CType.c_uint32 :=
  ⟨(c7_size_introspection (fun _ => none) (str "foo")).1 rfl,
   (c7_size_introspection (fun _ => none) (str "foo")).2.2.2.1
     ((c7_size_introspection (fun _ => none) (str "foo")).1 rfl)⟩

/-- The argument of `create_byte_buffer`, split by the `isinstance(..., int)`
test the source performs: either a Python integer or a byte sequence. -/
inductive InitOrSize where
  | int (n : Nat)
  | seq (s : List Nat)

/-- `create_byte_buffer(init_or_size)` (library.py lines 231-236): an integer
allocates a zero-initialized `c_uint8` array of that length; a sequence
allocates a `c_uint8` array of its length initialized from its elements
(each stored modulo 256, as ctypes does no overflow checking). -/
def create_byte_buffer : InitOrSize → List Nat
  | InitOrSize.int n => List.replicate n 0
  | InitOrSize.seq s => s.map (· % 256)

/-- C9: an integer argument yields an all-zero buffer of that length; a byte
sequence yields a buffer with exactly its elements in order; in particular
`create_byte_buffer(5)` is five zeros and `create_byte_buffer([1,2,3])` is
`[1,2,3]`. -/
theorem c9_create_byte_buffer (n : Nat) (s : List Nat)
    (hs : ∀ e ∈ s, e < 256) :
    (create_byte_buffer (InitOrSize.int n)).length = n ∧
    (∀ e ∈ create_byte_buffer (InitOrSize.int n), e = 0) ∧
    create_byte_buffer (InitOrSize.seq s) = s ∧
    create_byte_buffer (InitOrSize.int 5) = [0, 0, 0, 0, 0] ∧
    create_byte_buffer (InitOrSize.seq [1, 2, 3]) = [1, 2, 3] := by
  refine ⟨?_, ?_, ?_, by decide, by decide⟩
  · simp [create_byte_buffer]
  · intro e he
    simp [create_byte_buffer] at he
    exact he.2
  · show s.map (· % 256) = s
    calc s.map (· % 256) = s.map id := by
          apply List.map_congr_left
          intro e he
          exact Nat.mod_eq_of_lt (hs e he)
      _ = s := List.map_id s

/-- Witness for C9 at the byte sequence `[10, 20, 255]`. -/
theorem c9_create_byte_buffer_witness :
    create_byte_buffer (InitOrSize.seq [10, 20, 255]) = [10, 20, 255] :=
  (c9_create_byte_buffer 0 [10, 20, 255] (by decide)).2.2.1

/-- `AtcaReference` (library.py lines 40-69): a mutable box holding a value,
here instantiated at Python integers.  Each dunder method forwards the
operation to the boxed value. -/
structure AtcaReference where
  value : Int

/-- Method `__eq__`: `self.value == other`. -/
def AtcaReference.eq (self : AtcaReference) (other : Int) : Bool :=
  self.value == other

/-- Method `__ne__`: `self.value != other`. -/
def AtcaReference.ne (self : AtcaReference) (other : Int) : Bool :=
  self.value != other

/-- Method `__lt__`: `self.value < other`. -/
def AtcaReference.lt (self : AtcaReference) (other : Int) : Bool :=
  decide (self.value < other)

/-- Method `__le__`: `self.value <= other`. -/
def AtcaReference.le (self : AtcaReference) (other : Int) : Bool :=
  decide (self.value ≤ other)

/-- Method `__gt__`: `self.value > other`. -/
def AtcaReference.gt (self : AtcaReference) (other : Int) : Bool :=
  decide (self.value > other)

/-- Method `__ge__`: `self.value >= other`. -/
def AtcaReference.ge (self : AtcaReference) (other : Int) : Bool :=
  decide (self.value ≥ other)

/-- Method `__int__`: `int(self.value)`, the identity on an integer value. -/
def AtcaReference.toInt (self : AtcaReference) : Int := self.value

/-- C10: every comparison between `AtcaReference(V)` and a plain value `w`
agrees with the corresponding comparison between `V` and `w`, and
`int(AtcaReference(V))` equals `int(V)`. -/
theorem c10_reference_comparisons (V w : Int) :
    ((AtcaReference.mk V).eq w = (V == w)) ∧
    ((AtcaReference.mk V).ne w = (V != w)) ∧
    ((AtcaReference.mk V).lt w = decide (V < w)) ∧
    ((AtcaReference.mk V).le w = decide (V ≤ w)) ∧
    ((AtcaReference.mk V).gt w = decide (V > w)) ∧
    ((AtcaReference.mk V).ge w = decide (V ≥ w)) ∧
    ((AtcaReference.mk V).toInt = V) :=
  ⟨rfl, rfl, rfl, rfl, rfl, rfl, rfl⟩

end CryptoAuthLib
